import Mathlib

/-!
Shallow embedding of `static/script.js`: a camera-capture controller.

The script registers two near-identical `DOMContentLoaded` handlers
(lines 2-76 and 77-155).  Each handler looks up four DOM elements,
requests camera access, registers an `onloadedmetadata` observer that
sets a readiness flag, and attaches a click listener to the capture
control which draws the current video frame to a canvas, encodes it to
a JPEG blob and replaces the upload field's file list with a single
synthetic file.

The embedding models each handler's initialization as a trace of
observable actions (console output, camera request, stream attach,
observer registration, label updates, alerts, listener registration)
and the click handler as a function from controller state and a click
environment (video dimensions, blob-encoding success, current time,
and a possible exception thrown by the canvas operations) to an
`Except`: the source click listener contains no try/catch, so a thrown
exception leaves the handler as an `Except.error`.
-/

namespace CameraScript

/-- The two `DOMContentLoaded` handlers registered by the script:
`first` is the handler at lines 2-76, `second` the one at lines 77-155. -/
inductive Variant where
| first
| second
deriving DecidableEq

/-- Console message of the first handler's missing-element branch (line 11). -/
def missingMsgFirst : String := "🔴 必須のHTML要素が見つかりません。カメラ関連機能は動作しません。"

/-- Console message of the second handler's missing-element branch (line 87). -/
def missingMsgSecond : String := "🔴 必須のHTML要素が見つかりません。ID/クラスを確認してください。"

/-- Console message of the camera-failure catch blocks (lines 34, 115). -/
def cameraErrConsole : String := "🔴 カメラ起動エラー:"

/-- Alert of the camera-failure catch blocks (lines 35, 116). -/
def cameraErrAlertMsg : String := "カメラにアクセスできません。権限を確認するか、サイトがHTTPS接続になっているか確認してください。"

/-- Button label set by the catch blocks (lines 36, 117). -/
def unavailableLabel : String := "カメラ使用不可"

/-- Button label set by the second handler's missing-element branch (line 90). -/
def configErrorLabel : String := "設定エラー"

/-- Button label set by the first handler's metadata observer (line 30). -/
def readyLabelFirst : String := "📸 撮影する"

/-- Button label set by the second handler's metadata observer (line 111). -/
def readyLabelSecond : String := "📸 写真を撮影する"

/-- Alert shown when capture is triggered before readiness (lines 46, 128). -/
def notReadyMsg : String := "カメラがまだ準備できていません。しばらく待ってから再度お試しください。"

/-- Alert shown when `toBlob` yields no blob (lines 60, 142). -/
def captureFailMsg : String := "キャプチャに失敗しました。"

/-- Success alert of the first handler (line 72). -/
def successMsgFirst : String := "✅ 写真を撮影しました！フォームにセットされました。"

/-- Success alert of the second handler (line 151). -/
def successMsgSecond : String := "✅ 写真を撮影しました！フォームにセットされています。"

/-- Environment of one handler's initialization: which of the four
required DOM elements are present, and whether the `getUserMedia`
promise resolves (camera granted) or rejects. -/
structure InitEnv where
  videoPresent : Bool
  canvasPresent : Bool
  fileInputPresent : Bool
  captureButtonPresent : Bool
  cameraGranted : Bool
deriving DecidableEq

/-- Observable actions performed during a handler's initialization. -/
inductive Action where
| consoleError (msg : String)
| requestCamera
| attachStream
| registerMetadataObserver
| setLabel (l : String)
| alert (msg : String)
| addClickListener
deriving DecidableEq

/-- Whether an action is a console diagnostic. -/
def Action.isConsoleError : Action → Bool
| .consoleError _ => true
| _ => false

/-- Whether an action is a user-facing alert. -/
def Action.isAlert : Action → Bool
| .alert _ => true
| _ => false

/-- The element null check (lines 10, 86): true when any of the four
required elements is absent. -/
def elementsMissing (env : InitEnv) : Bool :=
  !env.videoPresent || !env.canvasPresent || !env.fileInputPresent ||
    !env.captureButtonPresent

/-- The action trace of one handler's initialization, transcribed from
lines 2-41 (first) and 77-123 (second): on a missing element the first
handler only logs (lines 11-12) while the second logs and, when the
capture control itself is present, relabels it (lines 87-93); otherwise
the camera is requested, and on grant the stream is attached (lines 24,
105), the metadata observer registered (lines 27, 108) and the click
listener added (lines 41, 123), while on rejection the catch block logs,
alerts, relabels and returns (lines 33-38, 114-120). -/
def initTrace (v : Variant) (env : InitEnv) : List Action :=
  if elementsMissing env then
    match v with
    | .first => [.consoleError missingMsgFirst]
    | .second =>
      .consoleError missingMsgSecond ::
        (if env.captureButtonPresent then [.setLabel configErrorLabel] else [])
  else if env.cameraGranted then
    [.requestCamera, .attachStream, .registerMetadataObserver, .addClickListener]
  else
    [.requestCamera, .consoleError cameraErrConsole, .alert cameraErrAlertMsg,
     .setLabel unavailableLabel]

/-- Controller state visible to later events: the readiness flag, the
video element's `srcObject`, whether the metadata observer and the click
listener were registered, the capture control's label and `disabled`
property, whether `getUserMedia` was called, and the logs of alerts and
console errors. -/
structure CtrlState where
  isCameraReady : Bool
  streamAttached : Bool
  metadataObserverRegistered : Bool
  clickListenerAttached : Bool
  buttonLabel : Option String
  buttonDisabled : Bool
  cameraRequested : Bool
  alerts : List String
  consoleErrors : List String
deriving DecidableEq

/-- State at the start of a handler: flag false (line 15), nothing
attached or registered, button label untouched, not disabled. -/
def initialState : CtrlState :=
  ⟨false, false, false, false, none, false, false, [], []⟩

/-- Effect of each initialization action on the controller state.  No
action ever sets `buttonDisabled`: the script never writes the
`disabled` property (the control is a label element). -/
def applyAction (st : CtrlState) : Action → CtrlState
| .consoleError m => { st with consoleErrors := st.consoleErrors ++ [m] }
| .requestCamera => { st with cameraRequested := true }
| .attachStream => { st with streamAttached := true }
| .registerMetadataObserver => { st with metadataObserverRegistered := true }
| .setLabel l => { st with buttonLabel := some l }
| .alert m => { st with alerts := st.alerts ++ [m] }
| .addClickListener => { st with clickListenerAttached := true }

/-- Controller state after one handler's initialization completes. -/
def initState (v : Variant) (env : InitEnv) : CtrlState :=
  (initTrace v env).foldl applyAction initialState

/-- Ready-state button label of each handler (lines 30, 111). -/
def readyLabel : Variant → String
| .first => readyLabelFirst
| .second => readyLabelSecond

/-- The `onloadedmetadata` callback (lines 27-31, 108-112): when the
observer was registered, it sets the readiness flag and relabels the
capture control; when it was never registered, the event has no effect
on the controller. -/
def fireLoadedMetadata (v : Variant) (st : CtrlState) : CtrlState :=
  if st.metadataObserverRegistered then
    { st with isCameraReady := true, buttonLabel := some (readyLabel v) }
  else st

/-- A synthetic file as stored into the upload field: name, MIME type
and pixel dimensions of the encoded frame. -/
structure CapturedFile where
  name : String
  mime : String
  width : Nat
  height : Nat
deriving DecidableEq

/-- Environment of one click on the capture control: the video's decoded
dimensions, whether `toBlob` produces a blob, the value `Date.now()`
returns during file construction, and a possible exception raised by the
canvas operations (`getContext` / `drawImage` / `toBlob`). -/
structure ClickEnv where
  videoWidth : Nat
  videoHeight : Nat
  blobOk : Bool
  now : Nat
  thrown : Option String
deriving DecidableEq

/-- File name constructed by each handler: the first embeds `Date.now()`
(line 65), the second is fixed (line 146). -/
def fileName : Variant → Nat → String
| .first, now => "capture_" ++ Nat.repr now ++ ".jpeg"
| .second, _ => "captured_item.jpeg"

/-- Success alert of each handler (lines 72, 151). -/
def successMsg : Variant → String
| .first => successMsgFirst
| .second => successMsgSecond

/-- Result of one click handler run: whether `preventDefault` was
called, the upload field's resulting file list, and the alerts shown. -/
structure ClickOutcome where
  defaultPrevented : Bool
  files : List CapturedFile
  alerts : List String
deriving DecidableEq

/-- The click listener (lines 41-75, 123-154): `preventDefault` first
(lines 43, 125); the readiness guard (lines 45-48, 127-130) alerts and
returns when the flag is false or no stream is attached; then the canvas
is sized and drawn — this region has no try/catch, so an exception
thrown there propagates out of the handler (`Except.error`); the
`toBlob` callback alerts on a null blob (lines 59-62, 141-144) and
otherwise builds one file and assigns a fresh single-file list to the
upload field (lines 65-70, 146-149), replacing its prior content. -/
def clickHandler (v : Variant) (st : CtrlState) (env : ClickEnv)
    (files : List CapturedFile) : Except String ClickOutcome :=
  if !st.isCameraReady || !st.streamAttached then
    .ok ⟨true, files, [notReadyMsg]⟩
  else
    match env.thrown with
    | some e => .error e
    | none =>
      if !env.blobOk then
        .ok ⟨true, files, [captureFailMsg]⟩
      else
        .ok ⟨true,
             [⟨fileName v env.now, "image/jpeg", env.videoWidth, env.videoHeight⟩],
             [successMsg v]⟩

/-- A click event dispatched on the capture control: when no listener
was attached the script takes no action at all — no `preventDefault`, no
alert, no file mutation. -/
def dispatchClick (v : Variant) (st : CtrlState) (env : ClickEnv)
    (files : List CapturedFile) : Except String ClickOutcome :=
  if st.clickListenerAttached then clickHandler v st env files
  else .ok ⟨false, files, []⟩

/-- The whole script's page-load trace: both `DOMContentLoaded` handlers
run over the same document (lines 2 and 77). -/
def pageTrace (env : InitEnv) : List Action :=
  initTrace .first env ++ initTrace .second env

/-- One click on the capture control when both handlers attached their
listeners: both run, in registration order, each overwriting the upload
field; under sequential completion order the result is the second
handler's file list. -/
def clickBoth (st1 st2 : CtrlState) (e1 e2 : ClickEnv)
    (files : List CapturedFile) : Except String (List CapturedFile) := do
  let o1 ← clickHandler .first st1 e1 files
  let o2 ← clickHandler .second st2 e2 o1.files
  .ok o2.files

/-- Two successive triggers handled by the same listener: the second
click starts from the file list the first one produced. -/
def sequentialTriggers (v : Variant) (st : CtrlState) (e1 e2 : ClickEnv)
    (files : List CapturedFile) : Except String (List CapturedFile) := do
  let o1 ← clickHandler v st e1 files
  let o2 ← clickHandler v st e2 o1.files
  .ok o2.files

/-- A camera media stream as a list of track identifiers. -/
structure MediaStream where
  tracks : List Nat
deriving DecidableEq

/-- Modelled from the spec: src/static/script.js registers no unload
handler, but the spec's teardown section ("If a stream handle is held,
stop every constituent track exactly once") describes page-unload
cleanup present in script revisions of this repository that are not
included under src/.  Per the spec's words, the cleanup stops each
constituent track of the held stream once (and stops nothing when no
stream is held); the returned list is the sequence of track identifiers
on which stop() is called. -/
def unloadCleanup (stream : Option MediaStream) : List Nat :=
  match stream with
  | none => []
  | some s => s.tracks

/-- Fully present document, camera granted. -/
def envAllGranted : InitEnv := ⟨true, true, true, true, true⟩

/-- Fully present document, camera request rejected. -/
def envAllRejected : InitEnv := ⟨true, true, true, true, false⟩

/-- Document missing the video element, capture control present. -/
def envNoVideo : InitEnv := ⟨false, true, true, true, true⟩

/-- First handler's state after a granted init and the metadata event. -/
def readyFirst : CtrlState := fireLoadedMetadata .first (initState .first envAllGranted)

/-- Second handler's state after a granted init and the metadata event. -/
def readySecond : CtrlState := fireLoadedMetadata .second (initState .second envAllGranted)

/-- Decimal value of a digit character. -/
def charVal (c : Char) : Nat := c.toNat - 48

/-- Value of a big-endian list of decimal digit characters. -/
def valChars (l : List Char) : Nat := l.foldl (fun a c => 10 * a + charVal c) 0

theorem charVal_digitChar (d : Nat) (h : d < 10) :
    charVal (Nat.digitChar d) = d := by
  interval_cases d <;> decide

theorem toDigitsCore_append (n : Nat) : ∀ fuel acc, n < fuel →
    Nat.toDigitsCore 10 fuel n acc = Nat.toDigitsCore 10 (n + 1) n [] ++ acc := by
  induction n using Nat.strong_induction_on with
  | _ n ih =>
    intro fuel acc hfuel
    match fuel with
    | f + 1 =>
      by_cases h0 : n / 10 = 0
      · simp [Nat.toDigitsCore, h0]
      · have hlt : n / 10 < n := Nat.div_lt_self (by omega) (by omega)
        have hfl : n / 10 < f := by omega
        have hfn : n / 10 < n := hlt
        simp only [Nat.toDigitsCore, h0, if_false]
        rw [ih (n / 10) hlt f _ hfl, ih (n / 10) hlt n _ (by omega)]
        simp

theorem valChars_append_singleton (l : List Char) (c : Char) :
    valChars (l ++ [c]) = 10 * valChars l + charVal c := by
  simp [valChars, List.foldl_append]

theorem valChars_toDigits (n : Nat) : valChars (Nat.toDigits 10 n) = n := by
  induction n using Nat.strong_induction_on with
  | _ n ih =>
    by_cases h0 : n / 10 = 0
    · have hn : n < 10 := by omega
      have hmod : n % 10 = n := Nat.mod_eq_of_lt hn
      simp [Nat.toDigits, Nat.toDigitsCore, h0, valChars, hmod,
        charVal_digitChar (n % 10) (Nat.mod_lt n (by omega))]
      rw [hmod] at hmod ⊢
      exact charVal_digitChar n hn
    · have hlt : n / 10 < n := Nat.div_lt_self (by omega) (by omega)
      have step : Nat.toDigits 10 n =
          Nat.toDigits 10 (n / 10) ++ [Nat.digitChar (n % 10)] := by
        simp only [Nat.toDigits, Nat.toDigitsCore, h0, if_false]
        exact toDigitsCore_append (n / 10) n [Nat.digitChar (n % 10)] (by omega)
      rw [step, valChars_append_singleton, ih (n / 10) hlt,
        charVal_digitChar (n % 10) (Nat.mod_lt n (by omega))]
      omega

theorem natReprData_inj {m n : Nat}
    (h : (Nat.repr m).data = (Nat.repr n).data) : m = n := by
  have h2 : valChars (Nat.toDigits 10 m) = valChars (Nat.toDigits 10 n) :=
    congrArg valChars h
  rwa [valChars_toDigits, valChars_toDigits] at h2

/-- Distinct timestamps give distinct first-handler file names. -/
theorem fileName_first_inj {m n : Nat}
    (h : fileName Variant.first m = fileName Variant.first n) : m = n := by
  apply natReprData_inj
  have hd := congrArg String.data h
  simp only [fileName, String.data_append] at hd
  exact List.append_cancel_left (List.append_cancel_right hd)

/-- Substring search over character lists: `pat` occurs somewhere in the
list. -/
def subOf (pat : List Char) : List Char → Bool
| [] => pat.isPrefixOf []
| c :: t => pat.isPrefixOf (c :: t) || subOf pat t

/-- Whether `pat` occurs as a substring of `s`. -/
def containsSubstr (s pat : String) : Bool := subOf pat.data s.data

theorem subOf_of_isPrefixOf (p : List Char) :
    ∀ l, p.isPrefixOf l = true → subOf p l = true
| [], h => h
| _ :: _, h => by simp [subOf, h]

theorem subOf_append (p t : List Char) : ∀ l, subOf p (l ++ (p ++ t)) = true
| [] => by
    have hp : p.isPrefixOf (p ++ t) = true := by
      rw [List.isPrefixOf_iff_prefix]
      exact List.prefix_append p t
    simpa using subOf_of_isPrefixOf p (p ++ t) hp
| c :: l => by
    have ih := subOf_append p t l
    simp [subOf, ih]

/-- The first handler's file name contains the decimal representation of
the timestamp it was built from. -/
theorem fileName_first_contains (n : Nat) :
    containsSubstr (fileName Variant.first n) (Nat.repr n) = true := by
  simp only [containsSubstr, fileName, String.data_append]
  rw [List.append_assoc]
  exact subOf_append (Nat.repr n).data (String.data ".jpeg") (String.data "capture_")

/-- A well-behaved click environment: 1280x720 frame, blob encoding
succeeds, `Date.now()` reads 5, no exception. -/
def cenvOk : ClickEnv := ⟨1280, 720, true, 5, none⟩

/-- A pre-existing manually selected file in the upload field. -/
def oldFile : CapturedFile := ⟨"old.png", "image/png", 10, 10⟩

/-- C1 (as stated) is false on the code: under the second handler a
successful trigger stores exactly one image/jpeg file, but its name is
the fixed "captured_item.jpeg", which does not contain the capture
timestamp (here 1730000000000). -/
theorem C1_counterexample :
    clickHandler Variant.second readySecond ⟨1280, 720, true, 1730000000000, none⟩ [] =
      Except.ok ⟨true, [⟨"captured_item.jpeg", "image/jpeg", 1280, 720⟩],
        [successMsgSecond]⟩ ∧
    containsSubstr "captured_item.jpeg" (Nat.repr 1730000000000) = false := by
  exact ⟨rfl, by decide⟩

/-- C1 (amended): every successful trigger leaves the upload field
holding exactly one file of MIME type image/jpeg with the frame's
dimensions, replacing any prior content; the first handler's file name
embeds the capture timestamp, while the second handler always uses the
fixed name "captured_item.jpeg". -/
theorem C1_success_contents (v : Variant) (st : CtrlState) (env : ClickEnv)
    (files : List CapturedFile)
    (hready : st.isCameraReady = true) (hstream : st.streamAttached = true)
    (hnoexc : env.thrown = none) (hblob : env.blobOk = true) :
    clickHandler v st env files =
      Except.ok ⟨true,
        [⟨fileName v env.now, "image/jpeg", env.videoWidth, env.videoHeight⟩],
        [successMsg v]⟩ ∧
    containsSubstr (fileName Variant.first env.now) (Nat.repr env.now) = true ∧
    fileName Variant.second env.now = "captured_item.jpeg" := by
  refine ⟨?_, fileName_first_contains env.now, rfl⟩
  simp [clickHandler, hready, hstream, hnoexc, hblob]

/-- C1 witness: the amended theorem applied to the first handler in its
ready state, with a previously selected file in the field. -/
theorem C1_success_contents_witness :
    clickHandler Variant.first readyFirst cenvOk [oldFile] =
      Except.ok ⟨true, [⟨fileName Variant.first 5, "image/jpeg", 1280, 720⟩],
        [successMsg Variant.first]⟩ ∧
    containsSubstr (fileName Variant.first 5) (Nat.repr 5) = true ∧
    fileName Variant.second 5 = "captured_item.jpeg" :=
  C1_success_contents Variant.first readyFirst cenvOk [oldFile]
    (by decide) (by decide) rfl rfl

/-- C2: the script registers two DOMContentLoaded initializers over the
same document, so a fully granted page load issues two camera requests
and attaches two click listeners; a single click then runs both capture
handlers, each overwriting the upload field, and under sequential
completion order the field ends holding exactly one file, the second
handler's fixed-named "captured_item.jpeg". -/
theorem C2_double_registration (env : InitEnv) (st1 st2 : CtrlState)
    (e1 e2 : ClickEnv) (files : List CapturedFile)
    (hmiss : elementsMissing env = false) (hgrant : env.cameraGranted = true)
    (h1r : st1.isCameraReady = true) (h1s : st1.streamAttached = true)
    (h2r : st2.isCameraReady = true) (h2s : st2.streamAttached = true)
    (h1e : e1.thrown = none) (h1b : e1.blobOk = true)
    (h2e : e2.thrown = none) (h2b : e2.blobOk = true) :
    (pageTrace env).count Action.requestCamera = 2 ∧
    (pageTrace env).count Action.addClickListener = 2 ∧
    clickBoth st1 st2 e1 e2 files =
      Except.ok [⟨"captured_item.jpeg", "image/jpeg", e2.videoWidth, e2.videoHeight⟩] := by
  refine ⟨?_, ?_, ?_⟩
  · simp [pageTrace, initTrace, hmiss, hgrant]
  · simp [pageTrace, initTrace, hmiss, hgrant]
  · simp [clickBoth, clickHandler, h1r, h1s, h2r, h2s, h1e, h1b, h2e, h2b,
      fileName, successMsg, bind, Except.bind]

/-- C2 witness: both handlers granted and ready, distinct click
environments, starting from a field holding a manually chosen file. -/
theorem C2_double_registration_witness :
    (pageTrace envAllGranted).count Action.requestCamera = 2 ∧
    (pageTrace envAllGranted).count Action.addClickListener = 2 ∧
    clickBoth readyFirst readySecond cenvOk ⟨640, 480, true, 9, none⟩ [oldFile] =
      Except.ok [⟨"captured_item.jpeg", "image/jpeg", 640, 480⟩] :=
  C2_double_registration envAllGranted readyFirst readySecond cenvOk
    ⟨640, 480, true, 9, none⟩ [oldFile] (by decide) rfl
    (by decide) (by decide) (by decide) (by decide) rfl rfl rfl rfl

/-- C3: on page unload with a held stream of pairwise-distinct tracks,
every constituent track is stopped exactly once (and with no held
stream, nothing is stopped). -/
theorem C3_unload_stops_each_track_once (s : MediaStream)
    (hnd : s.tracks.Nodup) (t : Nat) (ht : t ∈ s.tracks) :
    (unloadCleanup (some s)).count t = 1 ∧ unloadCleanup none = [] := by
  exact ⟨List.count_eq_one_of_mem hnd ht, rfl⟩

/-- C3 witness: a two-track stream; each track is stopped once. -/
theorem C3_unload_witness :
    (unloadCleanup (some ⟨[3, 7]⟩)).count 3 = 1 ∧ unloadCleanup none = [] :=
  C3_unload_stops_each_track_once ⟨[3, 7]⟩ (by decide) 3 (by decide)

/-- C4 (as stated) is false on the code: two successive successful
triggers of the second handler, at distinct timestamps 1000 and 2000,
both produce the same file name "captured_item.jpeg". -/
theorem C4_counterexample :
    clickHandler Variant.second readySecond ⟨1280, 720, true, 1000, none⟩ [] =
      Except.ok ⟨true, [⟨"captured_item.jpeg", "image/jpeg", 1280, 720⟩],
        [successMsgSecond]⟩ ∧
    clickHandler Variant.second readySecond ⟨1280, 720, true, 2000, none⟩
        [⟨"captured_item.jpeg", "image/jpeg", 1280, 720⟩] =
      Except.ok ⟨true, [⟨"captured_item.jpeg", "image/jpeg", 1280, 720⟩],
        [successMsgSecond]⟩ ∧
    fileName Variant.second 1000 = fileName Variant.second 2000 :=
  ⟨rfl, rfl, rfl⟩

/-- C4 (amended): after two successive successful triggers the upload
field holds exactly the second capture's file — full replacement, never
more than one file; the two file names are distinct under the first
handler whenever the two timestamp reads differ, while under the second
handler both triggers produce the same fixed name. -/
theorem C4_second_replaces_first (v : Variant) (st : CtrlState)
    (e1 e2 : ClickEnv) (files : List CapturedFile)
    (hready : st.isCameraReady = true) (hstream : st.streamAttached = true)
    (h1e : e1.thrown = none) (h1b : e1.blobOk = true)
    (h2e : e2.thrown = none) (h2b : e2.blobOk = true)
    (hnow : e1.now ≠ e2.now) :
    sequentialTriggers v st e1 e2 files =
      Except.ok [⟨fileName v e2.now, "image/jpeg", e2.videoWidth, e2.videoHeight⟩] ∧
    fileName Variant.first e1.now ≠ fileName Variant.first e2.now ∧
    fileName Variant.second e1.now = fileName Variant.second e2.now := by
  refine ⟨?_, fun h => hnow (fileName_first_inj h), rfl⟩
  simp [sequentialTriggers, clickHandler, hready, hstream, h1e, h1b, h2e, h2b,
    bind, Except.bind]

/-- C4 witness: the first handler, triggers at timestamps 5 and 6. -/
theorem C4_second_replaces_first_witness :
    sequentialTriggers Variant.first readyFirst cenvOk ⟨1280, 720, true, 6, none⟩ [oldFile] =
      Except.ok [⟨fileName Variant.first 6, "image/jpeg", 1280, 720⟩] ∧
    fileName Variant.first 5 ≠ fileName Variant.first 6 ∧
    fileName Variant.second 5 = fileName Variant.second 6 :=
  C4_second_replaces_first Variant.first readyFirst cenvOk ⟨1280, 720, true, 6, none⟩
    [oldFile] (by decide) (by decide) rfl rfl rfl rfl (by decide)

/-- C5 (as stated) is false on the code: the click handler contains no
try/catch, so an exception raised by the canvas operations during a
ready-state capture propagates out of the handler uncaught, with no
alert shown. -/
theorem C5_counterexample :
    clickHandler Variant.first readyFirst ⟨1280, 720, true, 5, some "TypeError"⟩ [] =
      Except.error "TypeError" := rfl

/-- C5 (amended): the exception boundary of the script sits around
camera initialization, not around capture: a rejected camera request is
caught, logged and alerted without propagating, but an unexpected
exception inside the trigger handler's capture section propagates out of
the handler with no alert. -/
theorem C5_no_capture_boundary (v : Variant) (st : CtrlState) (env : ClickEnv)
    (files : List CapturedFile) (e : String)
    (hready : st.isCameraReady = true) (hstream : st.streamAttached = true)
    (hthrown : env.thrown = some e) :
    clickHandler v st env files = Except.error e ∧
    (∀ envI : InitEnv, elementsMissing envI = false →
      envI.cameraGranted = false →
      (initState v envI).alerts = [cameraErrAlertMsg] ∧
      (initState v envI).consoleErrors = [cameraErrConsole]) := by
  constructor
  · simp [clickHandler, hready, hstream, hthrown]
  · intro envI hmiss hrej
    simp [initState, initTrace, hmiss, hrej, applyAction, initialState]

/-- C5 witness: a TypeError thrown during the second handler's capture
propagates; a rejected init on a full document is caught and alerted. -/
theorem C5_no_capture_boundary_witness :
    clickHandler Variant.second readySecond ⟨1280, 720, true, 5, some "TypeError"⟩ [] =
      Except.error "TypeError" ∧
    (initState Variant.second envAllRejected).alerts = [cameraErrAlertMsg] ∧
    (initState Variant.second envAllRejected).consoleErrors = [cameraErrConsole] :=
  ⟨(C5_no_capture_boundary Variant.second readySecond
      ⟨1280, 720, true, 5, some "TypeError"⟩ [] "TypeError"
      (by decide) (by decide) rfl).1,
   (C5_no_capture_boundary Variant.second readySecond
      ⟨1280, 720, true, 5, some "TypeError"⟩ [] "TypeError"
      (by decide) (by decide) rfl).2 envAllRejected (by decide) rfl⟩

/-- C6 (as stated) is false on the code: after a rejected camera request
the control is relabeled and an alert is shown, but the control is never
disabled — the script never writes the disabled property (the control is
a label element). -/
theorem C6_counterexample :
    (initState Variant.first envAllRejected).buttonDisabled = false ∧
    (initState Variant.first envAllRejected).buttonLabel = some unavailableLabel ∧
    (initState Variant.first envAllRejected).alerts = [cameraErrAlertMsg] :=
  ⟨rfl, rfl, rfl⟩

/-- C6 (amended): on a rejected camera request a user-visible
explanation is shown and the trigger control is relabeled ("カメラ使用
不可") though not disabled; the readiness flag is false and stays false
even if a metadata event fires (the observer was never registered); no
click listener is attached, so any trigger event — synthetic included —
leaves the upload field unchanged. -/
theorem C6_rejection_terminal (v : Variant) (env : InitEnv) (cenv : ClickEnv)
    (files : List CapturedFile)
    (hmiss : elementsMissing env = false) (hrej : env.cameraGranted = false) :
    (initState v env).alerts = [cameraErrAlertMsg] ∧
    (initState v env).buttonLabel = some unavailableLabel ∧
    (initState v env).buttonDisabled = false ∧
    (initState v env).isCameraReady = false ∧
    (fireLoadedMetadata v (initState v env)).isCameraReady = false ∧
    dispatchClick v (initState v env) cenv files = Except.ok ⟨false, files, []⟩ := by
  have hst : initState v env =
      ⟨false, false, false, false, some unavailableLabel, false, true,
       [cameraErrAlertMsg], [cameraErrConsole]⟩ := by
    simp [initState, initTrace, hmiss, hrej, applyAction, initialState]
  rw [hst]
  exact ⟨rfl, rfl, rfl, rfl, rfl, rfl⟩

/-- C6 witness: the first handler on a full document with the camera
request rejected, a synthetic click arriving with a file selected. -/
theorem C6_rejection_terminal_witness :
    (initState Variant.first envAllRejected).alerts = [cameraErrAlertMsg] ∧
    (initState Variant.first envAllRejected).buttonLabel = some unavailableLabel ∧
    (initState Variant.first envAllRejected).buttonDisabled = false ∧
    (initState Variant.first envAllRejected).isCameraReady = false ∧
    (fireLoadedMetadata Variant.first (initState Variant.first envAllRejected)).isCameraReady = false ∧
    dispatchClick Variant.first (initState Variant.first envAllRejected) cenvOk [oldFile] =
      Except.ok ⟨false, [oldFile], []⟩ :=
  C6_rejection_terminal Variant.first envAllRejected cenvOk [oldFile] (by decide) rfl

/-- C7 (as stated) is false on the code: with the video element absent
but the capture control present, the second handler does not stop at a
console diagnostic — it also relabels the control to "設定エラー". -/
theorem C7_counterexample :
    initTrace Variant.second envNoVideo =
      [Action.consoleError missingMsgSecond, Action.setLabel configErrorLabel] ∧
    (initTrace Variant.second envNoVideo).all Action.isConsoleError = false := by
  exact ⟨rfl, by decide⟩

/-- C7 (amended): when any required element is absent, no camera request
is issued, no alert is shown and a console diagnostic is emitted; the
first handler performs nothing beyond the diagnostic, while the second
additionally relabels the capture control to "設定エラー" when that
control is present; in all cases no click listener is attached and no
camera request is recorded. -/
theorem C7_missing_elements (v : Variant) (env : InitEnv)
    (hmiss : elementsMissing env = true) :
    (initTrace v env).count Action.requestCamera = 0 ∧
    (initTrace v env).all (fun a => !a.isAlert) = true ∧
    (initTrace v env).any Action.isConsoleError = true ∧
    (v = Variant.first → initTrace v env = [Action.consoleError missingMsgFirst]) ∧
    (v = Variant.second → env.captureButtonPresent = true →
      Action.setLabel configErrorLabel ∈ initTrace v env) ∧
    (initState v env).clickListenerAttached = false ∧
    (initState v env).cameraRequested = false := by
  cases v <;> by_cases hb : env.captureButtonPresent = true <;>
    simp_all [initTrace, initState, applyAction, initialState, Action.isAlert,
      Action.isConsoleError, hmiss]

/-- C7 witness: the second handler on a document missing the video
element but exposing the capture control. -/
theorem C7_missing_elements_witness :
    (initTrace Variant.second envNoVideo).count Action.requestCamera = 0 ∧
    (initTrace Variant.second envNoVideo).all (fun a => !a.isAlert) = true ∧
    (initTrace Variant.second envNoVideo).any Action.isConsoleError = true ∧
    (initState Variant.second envNoVideo).clickListenerAttached = false ∧
    (initState Variant.second envNoVideo).cameraRequested = false := by
  have h := C7_missing_elements Variant.second envNoVideo (by decide)
  exact ⟨h.1, h.2.1, h.2.2.1, h.2.2.2.2.2.1, h.2.2.2.2.2.2⟩

/-- C8: triggering capture while the readiness flag is false calls
`preventDefault`, shows the "not ready" alert, leaves the upload field's
file list untouched and takes no further action. -/
theorem C8_not_ready_guard (v : Variant) (st : CtrlState) (env : ClickEnv)
    (files : List CapturedFile) (hnr : st.isCameraReady = false) :
    clickHandler v st env files = Except.ok ⟨true, files, [notReadyMsg]⟩ := by
  simp [clickHandler, hnr]

/-- C8 witness: a click on the first handler after a granted init but
before the metadata event, with a file already selected. -/
theorem C8_not_ready_guard_witness :
    clickHandler Variant.first (initState Variant.first envAllGranted) cenvOk [oldFile] =
      Except.ok ⟨true, [oldFile], [notReadyMsg]⟩ :=
  C8_not_ready_guard Variant.first (initState Variant.first envAllGranted)
    cenvOk [oldFile] (by decide)

/-- C9 (as stated) is false on the code: in a granted initialization the
stream is attached (line 24) strictly before the metadata observer is
registered (line 27), not after. -/
theorem C9_counterexample :
    initTrace Variant.first envAllGranted =
      [Action.requestCamera, Action.attachStream,
       Action.registerMetadataObserver, Action.addClickListener] ∧
    (initTrace Variant.first envAllGranted).indexOf Action.attachStream <
      (initTrace Variant.first envAllGranted).indexOf Action.registerMetadataObserver := by
  exact ⟨rfl, by decide⟩

/-- C9 (amended): in every granted initialization the stream is attached
to the video surface first and the metadata observer registered
immediately after, in the same synchronous continuation; the readiness
flag is still false when initialization completes and becomes true
exactly when the registered observer fires. -/
theorem C9_attach_before_observer (v : Variant) (env : InitEnv)
    (hmiss : elementsMissing env = false) (hgrant : env.cameraGranted = true) :
    initTrace v env =
      [Action.requestCamera, Action.attachStream,
       Action.registerMetadataObserver, Action.addClickListener] ∧
    (initState v env).isCameraReady = false ∧
    (fireLoadedMetadata v (initState v env)).isCameraReady = true := by
  have ht : initTrace v env =
      [Action.requestCamera, Action.attachStream,
       Action.registerMetadataObserver, Action.addClickListener] := by
    simp [initTrace, hmiss, hgrant]
  refine ⟨ht, ?_, ?_⟩ <;>
    simp [initState, ht, applyAction, initialState, fireLoadedMetadata]

/-- C9 witness: the second handler on a fully granted load. -/
theorem C9_attach_before_observer_witness :
    initTrace Variant.second envAllGranted =
      [Action.requestCamera, Action.attachStream,
       Action.registerMetadataObserver, Action.addClickListener] ∧
    (initState Variant.second envAllGranted).isCameraReady = false ∧
    (fireLoadedMetadata Variant.second (initState Variant.second envAllGranted)).isCameraReady = true :=
  C9_attach_before_observer Variant.second envAllGranted (by decide) rfl

/-- C10: when camera initialization fails, the catch block returns
before `addEventListener`, so no click listener is attached; a later
click — synthetic included — produces no script action at all: no
alert, no file mutation, and no `preventDefault`, so the control's
default file-chooser behavior is not suppressed. -/
theorem C10_no_listener_after_failure (v : Variant) (env : InitEnv)
    (cenv : ClickEnv) (files : List CapturedFile)
    (hmiss : elementsMissing env = false) (hrej : env.cameraGranted = false) :
    (initState v env).clickListenerAttached = false ∧
    dispatchClick v (initState v env) cenv files = Except.ok ⟨false, files, []⟩ := by
  have hst : initState v env =
      ⟨false, false, false, false, some unavailableLabel, false, true,
       [cameraErrAlertMsg], [cameraErrConsole]⟩ := by
    simp [initState, initTrace, hmiss, hrej, applyAction, initialState]
  rw [hst]
  exact ⟨rfl, rfl⟩

/-- C10 witness: the second handler after a rejected request, with a
click carrying a well-formed capture environment. -/
theorem C10_no_listener_after_failure_witness :
    (initState Variant.second envAllRejected).clickListenerAttached = false ∧
    dispatchClick Variant.second (initState Variant.second envAllRejected) cenvOk [oldFile] =
      Except.ok ⟨false, [oldFile], []⟩ :=
  C10_no_listener_after_failure Variant.second envAllRejected cenvOk [oldFile]
    (by decide) rfl

end CameraScript
